import Mathlib

/-!
Verification of the SecOps data-export CLI (`data-export-cli.py`).

Strings are modelled as Lean `String`s; Python substring containment
(`needle in hay`) is modelled as `needle.data <:+: hay.data` and
`str.startswith` as `pre.data <+: s.data` on the underlying character lists.
-/

namespace DataExportCli

/-- Static configuration loaded from the `.env` file (`Config` in the source).
`os.getenv` yields `None` when a variable is unset, hence `Option String`. -/
structure Config where
  SERVICE_ACCOUNT_FILE : Option String
  PROJECT_ID : Option String
  LOCATION : Option String
  INSTANCE_ID : Option String
  GCS_BUCKET : Option String

/-- Python rendering of an optional string inside an f-string:
`None` prints as `"None"`, otherwise the string itself. -/
def pyStr : Option String → String
  | none => "None"
  | some s => s

/-- Python truthiness of an `os.getenv` result: `None` and `""` are falsy. -/
def pyTruthy : Option String → Bool
  | none => false
  | some s => !(s == "")

/-- `Config.INSTANCE_BASE_PATH` from the source:
`f"v1alpha/projects/{PROJECT_ID}/locations/{LOCATION}/instances/{INSTANCE_ID}"`. -/
def INSTANCE_BASE_PATH (cfg : Config) : String :=
  "v1alpha/projects/" ++ pyStr cfg.PROJECT_ID ++ "/locations/" ++ pyStr cfg.LOCATION
    ++ "/instances/" ++ pyStr cfg.INSTANCE_ID

/-- `_normalize_id` from the source:
case 1: `"projects/" not in export_id` → base path + `"/dataExports/"` + id;
case 2: `export_id.startswith("projects/")` → `"v1alpha/"` + id;
case 3: otherwise the id is returned unchanged. -/
def normalize_id (cfg : Config) (export_id : String) : String :=
  if ¬ ("projects/".data <:+: export_id.data) then
    INSTANCE_BASE_PATH cfg ++ "/dataExports/" ++ export_id
  else if "projects/".data <+: export_id.data then
    "v1alpha/" ++ export_id
  else
    export_id

/-! ## JSON values and the polling tracker -/

/-- Parsed JSON values, as returned by `resp.json()`. -/
inductive Json where
  | null
  | bool (b : Bool)
  | num (n : Int)
  | str (s : String)
  | arr (elems : List Json)
  | obj (fields : List (String × Json))

/-- Python `d.get(k, default)` on a parsed JSON value: `none` models the
`AttributeError` raised when `d` is not a dict. -/
def pyGetD (j : Json) (k : String) (d : Json) : Option Json :=
  match j with
  | Json.obj fs =>
    some (match fs.lookup k with
          | some v => v
          | none => d)
  | _ => none

/-- `status_data.get("dataExportStatus", {}).get("stage", "UNKNOWN")` from
`track_export_until_completion`; `none` models a raised `AttributeError`. -/
def getStage (status_data : Json) : Option Json :=
  match pyGetD status_data "dataExportStatus" (Json.obj []) with
  | none => none
  | some inner => pyGetD inner "stage" (Json.str "UNKNOWN")

/-- Python `state == "<literal>"` where `state` is a JSON value: true exactly
when `state` is the string `s`. -/
def jsonEqStr (state : Json) (s : String) : Bool :=
  match state with
  | Json.str t => t == s
  | _ => false

/-- One step of the scripted environment driving the tracking loop: either the
next status fetch returns payload `j`, or the user interrupts (Ctrl+C) before
that fetch completes. -/
inductive TrackStep where
  | status (j : Json)
  | interrupt

/-- Externally visible actions of the tracker (and of the cancel operation). -/
inductive Action where
  | fetchStatus
  | sleep (secs : Nat)
  | cancelCall
  deriving DecidableEq

/-- How a tracking run ended. `stillRunning` marks a script that ran out while
the loop was still polling (the real loop would keep going). `errorRaised`
models a propagated Python exception from a malformed payload. -/
inductive TrackOutcome where
  | success
  | failure (payload : Json)
  | anomaly (payload : Json)
  | interrupted
  | errorRaised (payload : Json)
  | stillRunning

/-- Observable result of a tracking run. -/
structure TrackRun where
  observations : List Json
  actions : List Action
  outcome : TrackOutcome

/-- `track_export_until_completion` from the source, driven by a scripted
sequence of steps: each iteration fetches the status, classifies the stage,
and either stops (success / failure / unknown-stage anomaly) or sleeps 30
seconds and loops; a `KeyboardInterrupt` stops the loop at once. -/
def track_loop : List TrackStep → TrackRun
  | [] => ⟨[], [], TrackOutcome.stillRunning⟩
  | TrackStep.interrupt :: _ => ⟨[], [], TrackOutcome.interrupted⟩
  | TrackStep.status p :: rest =>
    match getStage p with
    | none => ⟨[p], [Action.fetchStatus], TrackOutcome.errorRaised p⟩
    | some st =>
      if jsonEqStr st "FINISHED_SUCCESS" then
        ⟨[p], [Action.fetchStatus], TrackOutcome.success⟩
      else if jsonEqStr st "FINISHED_FAILURE" || jsonEqStr st "CANCELLED" then
        ⟨[p], [Action.fetchStatus], TrackOutcome.failure p⟩
      else if jsonEqStr st "IN_QUEUE" || jsonEqStr st "PROCESSING" || jsonEqStr st "PENDING" then
        let r := track_loop rest
        ⟨p :: r.observations, Action.fetchStatus :: Action.sleep 30 :: r.actions, r.outcome⟩
      else
        ⟨[p], [Action.fetchStatus], TrackOutcome.anomaly p⟩

/-- The stage literals the tracking loop compares against. -/
def knownStages : List String :=
  ["FINISHED_SUCCESS", "FINISHED_FAILURE", "CANCELLED", "IN_QUEUE", "PROCESSING", "PENDING"]

/-- Actions of `cancel_data_export`: POST to `:cancel`, then a status fetch. -/
def cancel_data_export_actions : List Action :=
  [Action.cancelCall, Action.fetchStatus]

/-- A status payload whose stage is `PROCESSING`. -/
def procPayload : Json :=
  Json.obj [("dataExportStatus", Json.obj [("stage", Json.str "PROCESSING")])]

/-- A status payload whose stage is `FINISHED_SUCCESS`. -/
def succPayload : Json :=
  Json.obj [("dataExportStatus", Json.obj [("stage", Json.str "FINISHED_SUCCESS")])]

/-- The scripted status sequence `[PROCESSING, PROCESSING, FINISHED_SUCCESS]`. -/
def script3 : List TrackStep :=
  [TrackStep.status procPayload, TrackStep.status procPayload, TrackStep.status succPayload]

/-! ## Time formatting (`create_data_export` time range) -/

/-- ASCII digit character for `n < 10`. -/
def digitChar (n : Nat) : Char := Char.ofNat (48 + n)

/-- Decimal digit characters of `n`, most significant first; fuel-indexed so
that the definition reduces by structural recursion. -/
def natDigitsGo : Nat → Nat → List Char
  | 0, _ => []
  | fuel + 1, n =>
    if n < 10 then [digitChar n] else natDigitsGo fuel (n / 10) ++ [digitChar (n % 10)]

/-- Decimal rendering of `n` (Python `%d` / `str`). -/
def natDigits (n : Nat) : List Char := natDigitsGo (n + 1) n

/-- Zero-padded two-digit rendering (`%m`, `%d`, `%H`, `%M`, `%S`). -/
def pad2 (n : Nat) : List Char := if n < 10 then '0' :: natDigits n else natDigits n

/-- Is `c` an ASCII digit? -/
def isDigitChar (c : Char) : Bool := decide (48 ≤ c.toNat) && decide (c.toNat ≤ 57)

/-- Calendar fields of a UTC datetime. -/
structure CivilDT where
  year : Int
  month : Nat
  day : Nat
  hour : Nat
  minute : Nat
  second : Nat

/-- Year-of-era (0–399) for day-of-era `doe` (standard 400-year-cycle
conversion). -/
def yoeOf (doe : Nat) : Nat :=
  (doe - doe / 1460 + doe / 36524 - doe / 146096) / 365

/-- Day-of-year (March-based, 0–365) for day-of-era `doe`. -/
def doyOf (doe : Nat) : Nat :=
  doe - (365 * yoeOf doe + yoeOf doe / 4 - yoeOf doe / 100)

/-- Shifted month index (0–11, March-based) for day-of-era `doe`. -/
def mpOf (doe : Nat) : Nat := (5 * doyOf doe + 2) / 153

/-- Day of month (1–31) for day-of-era `doe`. -/
def dayOf (doe : Nat) : Nat := doyOf doe - (153 * mpOf doe + 2) / 5 + 1

/-- Month (1–12) for day-of-era `doe`. -/
def monthOf (doe : Nat) : Nat := if mpOf doe < 10 then mpOf doe + 3 else mpOf doe - 9

/-- Calendar fields of the UTC instant `t` seconds after the Unix epoch
(proleptic Gregorian, via the standard era decomposition; `/` and `%` on `Int`
floor for these positive divisors, matching Python). -/
def civilOfSecs (t : Int) : CivilDT :=
  let sod : Nat := (t % 86400).toNat
  let z : Int := t / 86400 + 719468
  let era : Int := z / 146097
  let doe : Nat := (z % 146097).toNat
  let m : Nat := monthOf doe
  let y : Int := (yoeOf doe : Int) + era * 400 + (if m ≤ 2 then 1 else 0)
  ⟨y, m, dayOf doe, sod / 3600, sod % 3600 / 60, sod % 60⟩

/-- `strftime("%Y-%m-%dT%H:%M:%SZ")` of the UTC instant `t` seconds after the
Unix epoch. -/
def strftimeZfmt (t : Int) : String :=
  let c := civilOfSecs t
  String.mk (natDigits c.year.toNat ++ '-' :: pad2 c.month ++ '-' :: pad2 c.day ++
    'T' :: pad2 c.hour ++ ':' :: pad2 c.minute ++ ':' :: pad2 c.second ++ ['Z'])

/-- Whole seconds of a datetime holding `us` microseconds since the epoch:
the second field is the floor, `strftime` drops the sub-second part. -/
def epochSecOfMicros (us : Int) : Int := us / 1000000

/-- Seconds-since-epoch of `start_time_dt = end_time_dt - timedelta(days=days_back)`
when `end_time_dt` is `now_us` microseconds after the epoch. -/
def startSecOf (now_us days_back : Int) : Int :=
  epochSecOfMicros (now_us - days_back * 86400000000)

/-- Seconds-since-epoch of `end_time_dt = datetime.now(timezone.utc)`. -/
def endSecOf (now_us : Int) : Int := epochSecOfMicros now_us

/-- The `(startTime, endTime)` strings of `create_data_export`. -/
def create_export_times (now_us days_back : Int) : String × String :=
  (strftimeZfmt (startSecOf now_us days_back), strftimeZfmt (endSecOf now_us))

/-- `YYYY-MM-DDTHH:MM:SSZ` shape: 20 characters, digits and the fixed
separators in the right positions. -/
def isRFC3339 (s : String) : Bool :=
  match s.data with
  | [y1, y2, y3, y4, s1, m1, m2, s2, d1, d2, t1, h1, h2, c1, n1, n2, c2, e1, e2, z1] =>
    isDigitChar y1 && isDigitChar y2 && isDigitChar y3 && isDigitChar y4 &&
    (s1 == '-') && isDigitChar m1 && isDigitChar m2 && (s2 == '-') &&
    isDigitChar d1 && isDigitChar d2 && (t1 == 'T') &&
    isDigitChar h1 && isDigitChar h2 && (c1 == ':') &&
    isDigitChar n1 && isDigitChar n2 && (c2 == ':') &&
    isDigitChar e1 && isDigitChar e2 && (z1 == 'Z')
  | _ => false

/-! ## Create payload -/

/-- The JSON body built by `create_data_export`; `includeLogTypes = none`
models the key being absent from the payload. -/
structure CreatePayload where
  startTime : String
  endTime : String
  gcsBucket : Option String
  includeLogTypes : Option (List String)

/-- Python truthiness of the optional `log_types` argument: `None` and the
empty list are falsy. -/
def pyTruthyList : Option (List String) → Bool
  | none => false
  | some [] => false
  | some (_ :: _) => true

/-- Fully qualified log-type resource path for `lt`. -/
def logTypePath (cfg : Config) (lt : String) : String :=
  "projects/" ++ pyStr cfg.PROJECT_ID ++ "/locations/" ++ pyStr cfg.LOCATION ++
    "/instances/" ++ pyStr cfg.INSTANCE_ID ++ "/logTypes/" ++ lt

/-- The payload of `create_data_export(days_back, log_types)` when the current
time is `now_us` microseconds after the epoch. -/
def create_data_export_payload (cfg : Config) (now_us days_back : Int)
    (log_types : Option (List String)) : CreatePayload :=
  { startTime := (create_export_times now_us days_back).1
    endTime := (create_export_times now_us days_back).2
    gcsBucket := cfg.GCS_BUCKET
    includeLogTypes :=
      if pyTruthyList log_types then some ((log_types.getD []).map (logTypePath cfg))
      else none }

/-! ## `main`: configuration guard and HTTP error reporting -/

/-- Effects of a run of `main` visible to the outside world. -/
inductive Effect where
  | printLine (s : String)
  | createSession
  | httpGet (url : String)
  | httpPost (url : String)
  deriving DecidableEq

/-- `main` after argument parsing: the configuration check
`all([Config.PROJECT_ID, Config.INSTANCE_ID, Config.GCS_BUCKET])` runs before
the authorized session is created and before the selected action (whose
effects are `act_effects`, possibly network calls) is dispatched. -/
def main_guard (cfg : Config) (act_effects : List Effect) : List Effect :=
  if !(pyTruthy cfg.PROJECT_ID && pyTruthy cfg.INSTANCE_ID && pyTruthy cfg.GCS_BUCKET) then
    [Effect.printLine "Error: Missing critical .env configuration."]
  else
    Effect.createSession :: act_effects

mutual

/-- `json.dumps` (modulo whitespace and indentation). A literal brace is
written with its character codes. -/
def dumps : Json → String
  | Json.null => "null"
  | Json.bool b => if b then "true" else "false"
  | Json.num n => String.mk (if n < 0 then '-' :: natDigits (-n).toNat else natDigits n.toNat)
  | Json.str s => "\"" ++ s ++ "\""
  | Json.arr xs => "[" ++ dumpsElems xs ++ "]"
  | Json.obj fs => "\x7b" ++ dumpsFields fs ++ "\x7d"

def dumpsElems : List Json → String
  | [] => ""
  | [x] => dumps x
  | x :: y :: xs => dumps x ++ ", " ++ dumpsElems (y :: xs)

def dumpsFields : List (String × Json) → String
  | [] => ""
  | [(k, v)] => "\"" ++ k ++ "\": " ++ dumps v
  | (k, v) :: f :: fs => "\"" ++ k ++ "\": " ++ dumps v ++ ", " ++ dumpsFields (f :: fs)

end

/-- A `requests` response as seen by the error handler: status code, raw body
text, and the parsed body when `resp.json()` succeeds. -/
structure HttpResponse where
  status : Nat
  text : String
  jsonBody : Option Json

/-- A raised `requests.exceptions.HTTPError`: its printed message and the
attached response. -/
structure HttpError where
  msg : String
  response : Option HttpResponse

/-- The `except HTTPError` handler in `main`: prints the error, then the
parsed JSON detail when `resp.json()` succeeds, else the raw body text. -/
def handle_http_error (e : HttpError) : List String :=
  ("API Error: " ++ e.msg) ::
    (match e.response with
     | none => []
     | some r =>
       match r.jsonBody with
       | some j => ["Details: " ++ dumps j]
       | none => ["API Response: " ++ r.text])

/-- The simulated 403 response whose body is `JSON {"error": {"message": "forbidden"}}`. -/
def resp403 : HttpResponse :=
  { status := 403
    text := "\x7b\"error\": \x7b\"message\": \"forbidden\"\x7d\x7d"
    jsonBody := some (Json.obj [("error", Json.obj [("message", Json.str "forbidden")])]) }

/-! ## Listing exports -/

/-- One export summary as printed by `list_data_exports`. -/
structure ExportSummary where
  name : String
  stage : String
  createTime : String

/-- Python `f"{s:<w}"`: left-justify to width `w` with spaces. -/
def ljust (s : String) (w : Nat) : String :=
  s ++ String.mk (List.replicate (w - s.length) ' ')

/-- `s.split("/")[-1]`: the part of `s` after its last slash. -/
def lastSegment (s : String) : String :=
  String.mk (s.data.foldl (fun acc c => if c = '/' then [] else acc ++ [c]) [])

/-- The line printed for one export:
`f"ID: {name:<38} | Stage: {stage:<20} | Created: {create_time}"`. -/
def render_export_line (e : ExportSummary) : String :=
  "ID: " ++ ljust (lastSegment e.name) 38 ++ " | Stage: " ++ ljust e.stage 20 ++
    " | Created: " ++ e.createTime

/-- A response to the list request: HTTP status and the `dataExports` array
(an absent key yields the `[]` default). -/
structure ListResponse where
  status : Nat
  dataExports : List ExportSummary

/-- `list_data_exports`: `raise_for_status` raises on a 4xx/5xx status;
otherwise either the empty-result message or a header plus one line per
export, in the service-given order. -/
def list_data_exports (r : ListResponse) : Except Nat (List String) :=
  if r.status < 400 then
    Except.ok
      (if r.dataExports.isEmpty then
        ["No data exports found."]
      else
        ("Found " ++ String.mk (natDigits r.dataExports.length) ++ " export(s):") ::
          r.dataExports.map render_export_line)
  else Except.error r.status

/-! ## Service-account email selection -/

/-- Python truthiness of a JSON value. -/
def Json.truthy : Json → Bool
  | Json.null => false
  | Json.bool b => b
  | Json.num n => !(n == 0)
  | Json.str s => !(s == "")
  | Json.arr xs => !xs.isEmpty
  | Json.obj fs => !fs.isEmpty

/-- `data.get(k)` on a parsed JSON object; the `None` default is `Json.null`. -/
def dictGet (fs : List (String × Json)) (k : String) : Json :=
  match fs.lookup k with
  | some v => v
  | none => Json.null

/-- `data.get("serviceAccountEmail") or data.get("email")` from
`fetch_service_account`. -/
def sa_email_of (fs : List (String × Json)) : Json :=
  if (dictGet fs "serviceAccountEmail").truthy then dictGet fs "serviceAccountEmail"
  else dictGet fs "email"

/-- A service-account response body with optional `serviceAccountEmail` and
`email` string fields. -/
def mkSAData (sa email : Option String) : List (String × Json) :=
  (match sa with
   | some s => [("serviceAccountEmail", Json.str s)]
   | none => []) ++
  (match email with
   | some e => [("email", Json.str e)]
   | none => [])

/-! ## Theorems -/

theorem jsonEqStr_iff (state : Json) (s : String) :
    jsonEqStr state s = true ↔ state = Json.str s := by
  cases state <;> simp [jsonEqStr]

/-- C2: identifier normalization is a pure total function implementing exactly
three ordered cases: no `"projects/"` substring → base path + `"/dataExports/"`
+ id; starts with `"projects/"` → `"v1alpha/"` + id; otherwise (contains
`"projects/"` but does not start with it) unchanged. -/
theorem normalize_id_three_cases (cfg : Config) (s : String) :
    (¬ ("projects/".data <:+: s.data) →
      normalize_id cfg s = INSTANCE_BASE_PATH cfg ++ "/dataExports/" ++ s) ∧
    ("projects/".data <+: s.data → normalize_id cfg s = "v1alpha/" ++ s) ∧
    (("projects/".data <:+: s.data) ∧ ¬ ("projects/".data <+: s.data) →
      normalize_id cfg s = s) := by
  refine ⟨fun h => ?_, fun h => ?_, fun h => ?_⟩
  · simp [normalize_id, h]
  · have hinf : "projects/".data <:+: s.data := ⟨[], s.data.drop "projects/".data.length, by
      obtain ⟨t, ht⟩ := h
      simp [← ht]⟩
    simp [normalize_id, hinf, h]
  · simp [normalize_id, h.1, h.2]

/-- Witness for C2 at concrete inputs: a bare short id goes through case 1. -/
theorem normalize_id_three_cases_witness :
    normalize_id ⟨none, some "p", some "us", some "i", some "b"⟩ "abc123"
      = "v1alpha/projects/p/locations/us/instances/i/dataExports/abc123" :=
  (normalize_id_three_cases ⟨none, some "p", some "us", some "i", some "b"⟩ "abc123").1
    (by decide)

/-- C6: on an already-versioned path (contains `"projects/"` but does not start
with it) normalization is the identity, hence idempotent there. -/
theorem normalize_id_idempotent (cfg : Config) (v : String)
    (h1 : "projects/".data <:+: v.data) (h2 : ¬ ("projects/".data <+: v.data)) :
    normalize_id cfg v = v ∧
      normalize_id cfg (normalize_id cfg v) = normalize_id cfg v := by
  have hv : normalize_id cfg v = v := by simp [normalize_id, h1, h2]
  exact ⟨hv, by rw [hv]; exact hv⟩

/-- Witness for C6 at a concrete already-versioned path. -/
theorem normalize_id_idempotent_witness :
    normalize_id ⟨none, some "p", some "us", some "i", some "b"⟩ "v1alpha/projects/p/x"
      = "v1alpha/projects/p/x" :=
  (normalize_id_idempotent ⟨none, some "p", some "us", some "i", some "b"⟩
    "v1alpha/projects/p/x" (by decide) (by decide)).1

/-- C1 (amended: the loop recognizes six stage values, not five): the polling
loop classifies each observed stage as the state machine prescribes —
`FINISHED_SUCCESS` stops with success after that single observation;
`FINISHED_FAILURE`/`CANCELLED` stop with failure retaining the full payload;
any stage outside the known values stops immediately (no further fetch) with
an anomaly retaining the full payload; `IN_QUEUE`/`PROCESSING`/`PENDING` sleep
the 30s interval and fetch again; and the scripted sequence
`[PROCESSING, PROCESSING, FINISHED_SUCCESS]` yields exactly 3 observations and
ends in success. -/
theorem track_classification (p st : Json) (rest : List TrackStep)
    (hst : getStage p = some st) :
    (jsonEqStr st "FINISHED_SUCCESS" = true →
      track_loop (TrackStep.status p :: rest)
        = ⟨[p], [Action.fetchStatus], TrackOutcome.success⟩) ∧
    ((jsonEqStr st "FINISHED_FAILURE" = true ∨ jsonEqStr st "CANCELLED" = true) →
      track_loop (TrackStep.status p :: rest)
        = ⟨[p], [Action.fetchStatus], TrackOutcome.failure p⟩) ∧
    ((jsonEqStr st "IN_QUEUE" = true ∨ jsonEqStr st "PROCESSING" = true ∨
        jsonEqStr st "PENDING" = true) →
      track_loop (TrackStep.status p :: rest)
        = ⟨p :: (track_loop rest).observations,
           Action.fetchStatus :: Action.sleep 30 :: (track_loop rest).actions,
           (track_loop rest).outcome⟩) ∧
    ((∀ k ∈ knownStages, jsonEqStr st k = false) →
      track_loop (TrackStep.status p :: rest)
        = ⟨[p], [Action.fetchStatus], TrackOutcome.anomaly p⟩) ∧
    (track_loop script3
        = ⟨[procPayload, procPayload, succPayload],
           [Action.fetchStatus, Action.sleep 30, Action.fetchStatus, Action.sleep 30,
            Action.fetchStatus],
           TrackOutcome.success⟩ ∧
      (track_loop script3).observations.length = 3) := by
  refine ⟨fun h => ?_, fun h => ?_, fun h => ?_, fun h => ?_, by constructor <;> rfl⟩
  · simp [track_loop, hst, h]
  · rcases h with h | h <;> rw [jsonEqStr_iff] at h <;> subst h <;>
      simp [track_loop, hst, jsonEqStr]
  · rcases h with h | h | h <;> rw [jsonEqStr_iff] at h <;> subst h <;>
      simp [track_loop, hst, jsonEqStr]
  · simp only [knownStages, List.mem_cons, List.not_mem_nil, forall_eq_or_imp] at h
    obtain ⟨h1, h2, h3, h4, h5, h6, -⟩ := h
    simp [track_loop, hst, h1, h2, h3, h4, h5, h6]

/-- Witness for C1: a single `FINISHED_SUCCESS` observation stops with
success, and the scripted sequence emits 3 observations and ends in success. -/
theorem track_classification_witness :
    track_loop [TrackStep.status succPayload]
        = ⟨[succPayload], [Action.fetchStatus], TrackOutcome.success⟩ ∧
      (track_loop script3).observations.length = 3 :=
  ⟨(track_classification succPayload (Json.str "FINISHED_SUCCESS") [] rfl).1 rfl,
   (track_classification succPayload (Json.str "FINISHED_SUCCESS") [] rfl).2.2.2.2.2⟩

/-- Counterexample for C1 as stated: the tracking loop's set of known stage
values has six elements, not five. -/
theorem track_known_stages_not_five :
    knownStages.length = 6 ∧ knownStages.length ≠ 5 := by
  constructor <;> decide

/-- C5: no execution of the tracking loop ever issues a cancel request, and a
run interrupted by the user stops at that point: whatever the environment
would have supplied after the interruption is never consumed — in particular
no further status fetch happens. -/
theorem track_interrupt_no_cancel (evs : List TrackStep) :
    Action.cancelCall ∉ (track_loop evs).actions ∧
    ∀ pre post, evs = pre ++ TrackStep.interrupt :: post →
      track_loop evs = track_loop (pre ++ [TrackStep.interrupt]) := by
  constructor
  · induction evs with
    | nil => simp [track_loop]
    | cons e rest ih =>
      cases e with
      | interrupt => simp [track_loop]
      | status p =>
        rcases hg : getStage p with _ | st
        · simp [track_loop, hg]
        · by_cases h1 : jsonEqStr st "FINISHED_SUCCESS" = true
          · simp [track_loop, hg, h1]
          · by_cases h2 : (jsonEqStr st "FINISHED_FAILURE" || jsonEqStr st "CANCELLED") = true
            · simp [track_loop, hg, h1, h2]
            · by_cases h3 : (jsonEqStr st "IN_QUEUE" || jsonEqStr st "PROCESSING" ||
                  jsonEqStr st "PENDING") = true
              · simpa [track_loop, hg, h1, h2, h3] using ih
              · simp [track_loop, hg, h1, h2, h3]
  · intro pre post hev
    subst hev
    induction pre with
    | nil => simp [track_loop]
    | cons e rest ih =>
      cases e with
      | interrupt => simp [track_loop]
      | status p =>
        rcases hg : getStage p with _ | st
        · simp [track_loop, hg]
        · by_cases h1 : jsonEqStr st "FINISHED_SUCCESS" = true
          · simp [track_loop, hg, h1]
          · by_cases h2 : (jsonEqStr st "FINISHED_FAILURE" || jsonEqStr st "CANCELLED") = true
            · simp [track_loop, hg, h1, h2]
            · by_cases h3 : (jsonEqStr st "IN_QUEUE" || jsonEqStr st "PROCESSING" ||
                  jsonEqStr st "PENDING") = true
              · simp only [List.cons_append, track_loop, hg, List.append_eq]
                rw [ih]
              · simp [track_loop, hg, h1, h2, h3]

/-- Witness for C5: a run interrupted after one `PROCESSING` observation never
issues a cancel call and ignores everything scripted after the interrupt. -/
theorem track_interrupt_no_cancel_witness :
    Action.cancelCall ∉
        (track_loop [TrackStep.status procPayload, TrackStep.interrupt,
          TrackStep.status procPayload]).actions ∧
      track_loop [TrackStep.status procPayload, TrackStep.interrupt,
          TrackStep.status procPayload]
        = track_loop [TrackStep.status procPayload, TrackStep.interrupt] :=
  ⟨(track_interrupt_no_cancel [TrackStep.status procPayload, TrackStep.interrupt,
      TrackStep.status procPayload]).1,
   (track_interrupt_no_cancel [TrackStep.status procPayload, TrackStep.interrupt,
      TrackStep.status procPayload]).2 [TrackStep.status procPayload]
      [TrackStep.status procPayload] rfl⟩

/-- C4: the creation payload carries the computed start/end times and the
configured bucket; `includeLogTypes` is present iff the supplied log-type
collection is non-empty, and then holds one fully qualified resource path per
supplied log type; concretely, `logTypes = ["OKTA"]` with bucket `my-bucket`
yields exactly one path ending in `/logTypes/OKTA` and `gcsBucket = "my-bucket"`. -/
theorem create_payload_contents (cfg : Config) (now_us days_back : Int)
    (log_types : Option (List String)) :
    (create_data_export_payload cfg now_us days_back log_types).startTime
        = (create_export_times now_us days_back).1 ∧
    (create_data_export_payload cfg now_us days_back log_types).endTime
        = (create_export_times now_us days_back).2 ∧
    (create_data_export_payload cfg now_us days_back log_types).gcsBucket
        = cfg.GCS_BUCKET ∧
    (∀ l, log_types = some l → l ≠ [] →
      (create_data_export_payload cfg now_us days_back log_types).includeLogTypes
        = some (l.map (logTypePath cfg))) ∧
    ((log_types = none ∨ log_types = some []) →
      (create_data_export_payload cfg now_us days_back log_types).includeLogTypes
        = none) ∧
    ((create_data_export_payload ⟨none, some "p", some "us", some "i", some "my-bucket"⟩
        now_us 1 (some ["OKTA"])).includeLogTypes
        = some ["projects/p/locations/us/instances/i/logTypes/OKTA"] ∧
      ("/logTypes/OKTA".data <:+
        "projects/p/locations/us/instances/i/logTypes/OKTA".data) ∧
      (create_data_export_payload ⟨none, some "p", some "us", some "i", some "my-bucket"⟩
        now_us 1 (some ["OKTA"])).gcsBucket = some "my-bucket") := by
  refine ⟨rfl, rfl, rfl, ?_, ?_, ?_, by decide, rfl⟩
  · intro l hl hne
    subst hl
    cases l with
    | nil => exact absurd rfl hne
    | cons a as => simp [create_data_export_payload, pyTruthyList]
  · rintro (h | h) <;> subst h <;> rfl
  · rfl

/-- Witness for C4: the `["OKTA"]` payload carries exactly the one mapped path. -/
theorem create_payload_contents_witness :
    (create_data_export_payload ⟨none, some "p", some "us", some "i", some "my-bucket"⟩
        0 1 (some ["OKTA"])).includeLogTypes
      = some (["OKTA"].map (logTypePath ⟨none, some "p", some "us", some "i", some "my-bucket"⟩)) :=
  (create_payload_contents ⟨none, some "p", some "us", some "i", some "my-bucket"⟩
    0 1 (some ["OKTA"])).2.2.2.1 ["OKTA"] rfl (by decide)

/-- C7: if the project id, instance id, or bucket is absent, `main` prints the
fatal configuration message and stops — no session is created and no network
request is issued. -/
theorem missing_config_fails_fast (cfg : Config) (acts : List Effect)
    (h : cfg.PROJECT_ID = none ∨ cfg.INSTANCE_ID = none ∨ cfg.GCS_BUCKET = none) :
    main_guard cfg acts = [Effect.printLine "Error: Missing critical .env configuration."] ∧
    ∀ e ∈ main_guard cfg acts,
      e ≠ Effect.createSession ∧ ∀ u, e ≠ Effect.httpGet u ∧ e ≠ Effect.httpPost u := by
  have hfalse :
      (pyTruthy cfg.PROJECT_ID && pyTruthy cfg.INSTANCE_ID && pyTruthy cfg.GCS_BUCKET)
        = false := by
    rcases h with h | h | h <;> simp [h, pyTruthy]
  refine ⟨by simp [main_guard, hfalse], ?_⟩
  intro e he
  simp only [main_guard, hfalse, Bool.not_false, if_pos, List.mem_singleton] at he
  subst he
  exact ⟨by simp, fun u => ⟨by simp, by simp⟩⟩

/-- Witness for C7: with the project id unset, only the error line is emitted. -/
theorem missing_config_fails_fast_witness :
    main_guard ⟨none, none, some "us", some "i", some "b"⟩ [Effect.httpGet "u"]
      = [Effect.printLine "Error: Missing critical .env configuration."] :=
  (missing_config_fails_fast ⟨none, none, some "us", some "i", some "b"⟩
    [Effect.httpGet "u"] (Or.inl rfl)).1

/-- C8: a non-2xx response whose body parses as JSON is reported with the
parsed structured detail; the simulated 403 with body
`JSON {"error": {"message": "forbidden"}}` yields a report containing `"forbidden"`. -/
theorem api_error_structured_detail :
    (∀ m r j, r.jsonBody = some j →
      handle_http_error ⟨m, some r⟩ = ["API Error: " ++ m, "Details: " ++ dumps j]) ∧
    "forbidden".data <:+:
      (String.join (handle_http_error ⟨"403 Client Error: Forbidden", some resp403⟩)).data := by
  constructor
  · intro m r j hj
    simp [handle_http_error, hj]
  · have hrw : handle_http_error ⟨"403 Client Error: Forbidden", some resp403⟩
        = ["API Error: 403 Client Error: Forbidden",
           "Details: \x7b\"error\": \x7b\"message\": \"forbidden\"\x7d\x7d"] := by
      simp only [handle_http_error, resp403]
      norm_num [dumps, dumpsFields]
      exact ⟨rfl, rfl⟩
    rw [hrw]
    exact ⟨"API Error: 403 Client Error: ForbiddenDetails: \x7b\"error\": \x7b\"message\": \"".data,
      "\"\x7d\x7d".data, rfl⟩

/-- Witness for C8: the handler output on the simulated 403. -/
theorem api_error_structured_detail_witness :
    handle_http_error ⟨"403 Client Error: Forbidden", some resp403⟩
      = ["API Error: " ++ "403 Client Error: Forbidden",
         "Details: " ++ dumps (Json.obj [("error", Json.obj [("message", Json.str "forbidden")])])] :=
  api_error_structured_detail.1 "403 Client Error: Forbidden" resp403
    (Json.obj [("error", Json.obj [("message", Json.str "forbidden")])]) rfl

/-- C9: on a non-error response `list_data_exports` completes normally,
printing the export summaries in the service-given order; an empty list is a
valid, non-error result. -/
theorem list_exports_ordered_and_empty_ok (r : ListResponse) (h : r.status < 400) :
    (∃ lines, list_data_exports r = Except.ok lines ∧
      (r.dataExports ≠ [] →
        lines = ("Found " ++ String.mk (natDigits r.dataExports.length) ++ " export(s):") ::
          r.dataExports.map render_export_line)) ∧
    (r.dataExports = [] → list_data_exports r = Except.ok ["No data exports found."]) := by
  cases hde : r.dataExports with
  | nil =>
    refine ⟨⟨["No data exports found."], ?_, fun hne => absurd rfl hne⟩, fun _ => ?_⟩ <;>
      simp [list_data_exports, h, hde]
  | cons e es =>
    refine ⟨⟨_, ?_, fun _ => rfl⟩, fun habs => absurd habs (by simp)⟩
    simp [list_data_exports, h, hde]

/-- Witness for C9: an empty service list completes normally. -/
theorem list_exports_ordered_and_empty_ok_witness :
    list_data_exports ⟨200, []⟩ = Except.ok ["No data exports found."] :=
  (list_exports_ordered_and_empty_ok ⟨200, []⟩ (by decide)).2 rfl

/-- C10: `fetch_service_account` picks `serviceAccountEmail` first, falls back
to `email` when that field is absent or empty, and yields `None` when neither
field is present. -/
theorem fetch_sa_email_selection (sa email : Option String) :
    (∀ s, sa = some s → s ≠ "" → sa_email_of (mkSAData sa email) = Json.str s) ∧
    ((sa = none ∨ sa = some "") →
      sa_email_of (mkSAData sa email)
        = match email with
          | some e => Json.str e
          | none => Json.null) ∧
    (sa = none → email = none → sa_email_of (mkSAData sa email) = Json.null) := by
  refine ⟨?_, ?_, ?_⟩
  · intro s hsa hne
    subst hsa
    cases email <;>
      simp [sa_email_of, mkSAData, dictGet, Json.truthy, List.lookup, hne]
  · rintro (h | h) <;> subst h <;> cases email <;>
      simp [sa_email_of, mkSAData, dictGet, Json.truthy, List.lookup]
  · intro h1 h2
    subst h1; subst h2
    rfl

/-- Witness for C10: a non-empty `serviceAccountEmail` wins over `email`. -/
theorem fetch_sa_email_selection_witness :
    sa_email_of (mkSAData (some "sa@example.com") (some "other@example.com"))
      = Json.str "sa@example.com" :=
  (fetch_sa_email_selection (some "sa@example.com") (some "other@example.com")).1
    "sa@example.com" rfl (by decide)

theorem natDigitsGo_congr : ∀ f1 f2 n, n < f1 → n < f2 →
    natDigitsGo f1 n = natDigitsGo f2 n := by
  intro f1
  induction f1 with
  | zero => intro f2 n h1 _; omega
  | succ f ih =>
    intro f2 n h1 h2
    cases f2 with
    | zero => omega
    | succ g =>
      simp only [natDigitsGo]
      split
      · rfl
      · rw [ih g (n / 10) (by omega) (by omega)]

theorem natDigits_unfold (n : Nat) :
    natDigits n
      = if n < 10 then [digitChar n] else natDigits (n / 10) ++ [digitChar (n % 10)] := by
  by_cases h : n < 10
  · rw [if_pos h]
    unfold natDigits
    simp only [natDigitsGo]
    rw [if_pos h]
  · rw [if_neg h]
    conv_lhs =>
      rw [show natDigits n = natDigitsGo (n + 1) n from rfl, natDigitsGo]
    rw [if_neg h, natDigitsGo_congr n (n / 10 + 1) (n / 10) (by omega) (by omega)]
    rfl

theorem natDigits_four (y : Nat) (h1 : 1000 ≤ y) (h2 : y ≤ 9999) :
    natDigits y = [digitChar (y / 1000), digitChar (y / 100 % 10),
      digitChar (y / 10 % 10), digitChar (y % 10)] := by
  have e1 : y / 10 / 10 = y / 100 := by omega
  have e2 : y / 100 / 10 = y / 1000 := by omega
  rw [natDigits_unfold y, if_neg (by omega), natDigits_unfold (y / 10), if_neg (by omega),
      natDigits_unfold (y / 10 / 10), if_neg (by omega), e1, e2,
      natDigits_unfold (y / 1000), if_pos (by omega)]
  rfl

theorem pad2_two (n : Nat) (h : n < 100) :
    pad2 n = [digitChar (n / 10), digitChar (n % 10)] := by
  unfold pad2
  split
  · rename_i hn
    rw [natDigits_unfold n, if_pos hn]
    have e1 : n / 10 = 0 := by omega
    have e2 : n % 10 = n := by omega
    rw [e1, e2]
    rfl
  · rename_i hn
    rw [natDigits_unfold n, if_neg hn, natDigits_unfold (n / 10), if_pos (by omega)]
    rfl

theorem isDigitChar_digitChar : ∀ d, d < 10 → isDigitChar (digitChar d) = true := by decide

theorem doyOf_loose (doe : Nat) (h : doe ≤ 146096) : doyOf doe ≤ 2968 := by
  unfold doyOf yoeOf
  omega

theorem monthOf_lt (doe : Nat) (h : doe ≤ 146096) : monthOf doe < 100 := by
  have hd : doyOf doe ≤ 2968 := doyOf_loose doe h
  unfold monthOf mpOf
  split <;> omega

theorem dayOf_lt (doe : Nat) : dayOf doe < 100 := by
  unfold dayOf mpOf
  omega

theorem civilOfSecs_bounds (t : Int) :
    (civilOfSecs t).month < 100 ∧ (civilOfSecs t).day < 100 ∧
    (civilOfSecs t).hour < 100 ∧ (civilOfSecs t).minute < 100 ∧
    (civilOfSecs t).second < 100 := by
  have h1 : 0 ≤ t % 86400 := Int.emod_nonneg t (by norm_num)
  have h2 : t % 86400 < 86400 := Int.emod_lt_of_pos t (by norm_num)
  have h3 : 0 ≤ (t / 86400 + 719468) % 146097 := Int.emod_nonneg _ (by norm_num)
  have h4 : (t / 86400 + 719468) % 146097 < 146097 := Int.emod_lt_of_pos _ (by norm_num)
  have hdoe : ((t / 86400 + 719468) % 146097).toNat ≤ 146096 := by omega
  have hsod : (t % 86400).toNat < 86400 := by omega
  simp only [civilOfSecs]
  exact ⟨monthOf_lt _ hdoe, dayOf_lt _, by omega, by omega, by omega⟩

theorem isRFC3339_mk (y mo dd hh mi ss : Nat) (hy1 : 1000 ≤ y) (hy2 : y ≤ 9999)
    (hmo : mo < 100) (hdd : dd < 100) (hhh : hh < 100) (hmi : mi < 100) (hss : ss < 100) :
    isRFC3339 (String.mk (natDigits y ++ '-' :: pad2 mo ++ '-' :: pad2 dd ++
      'T' :: pad2 hh ++ ':' :: pad2 mi ++ ':' :: pad2 ss ++ ['Z'])) = true := by
  have d1 : isDigitChar (digitChar (y / 1000)) = true := isDigitChar_digitChar _ (by omega)
  have d2 : isDigitChar (digitChar (y / 100 % 10)) = true := isDigitChar_digitChar _ (by omega)
  have d3 : isDigitChar (digitChar (y / 10 % 10)) = true := isDigitChar_digitChar _ (by omega)
  have d4 : isDigitChar (digitChar (y % 10)) = true := isDigitChar_digitChar _ (by omega)
  have d5 : isDigitChar (digitChar (mo / 10)) = true := isDigitChar_digitChar _ (by omega)
  have d6 : isDigitChar (digitChar (mo % 10)) = true := isDigitChar_digitChar _ (by omega)
  have d7 : isDigitChar (digitChar (dd / 10)) = true := isDigitChar_digitChar _ (by omega)
  have d8 : isDigitChar (digitChar (dd % 10)) = true := isDigitChar_digitChar _ (by omega)
  have d9 : isDigitChar (digitChar (hh / 10)) = true := isDigitChar_digitChar _ (by omega)
  have d10 : isDigitChar (digitChar (hh % 10)) = true := isDigitChar_digitChar _ (by omega)
  have d11 : isDigitChar (digitChar (mi / 10)) = true := isDigitChar_digitChar _ (by omega)
  have d12 : isDigitChar (digitChar (mi % 10)) = true := isDigitChar_digitChar _ (by omega)
  have d13 : isDigitChar (digitChar (ss / 10)) = true := isDigitChar_digitChar _ (by omega)
  have d14 : isDigitChar (digitChar (ss % 10)) = true := isDigitChar_digitChar _ (by omega)
  rw [natDigits_four y hy1 hy2, pad2_two mo hmo, pad2_two dd hdd, pad2_two hh hhh,
      pad2_two mi hmi, pad2_two ss hss]
  simp only [List.cons_append, List.nil_append]
  simp [isRFC3339, d1, d2, d3, d4, d5, d6, d7, d8, d9, d10, d11, d12, d13, d14]

theorem isRFC3339_strftimeZfmt (t : Int) (hy1 : 1000 ≤ (civilOfSecs t).year)
    (hy2 : (civilOfSecs t).year ≤ 9999) : isRFC3339 (strftimeZfmt t) = true := by
  obtain ⟨hm, hdd, hhh, hmi, hss⟩ := civilOfSecs_bounds t
  simp only [strftimeZfmt]
  exact isRFC3339_mk _ _ _ _ _ _ (by omega) (by omega) hm hdd hhh hmi hss

/-- C3: `create_data_export` takes `endTime = now (UTC)` and
`startTime = endTime - daysBack days`; the serialized timestamps differ by
exactly `daysBack` days (in seconds: `d * 86400`), and both render as
`YYYY-MM-DDTHH:MM:SSZ` (stated for timestamps whose year has four digits;
Python `datetime` years are at most 9999). -/
theorem create_export_time_range (now_us d : Int) (hd : 0 ≤ d)
    (hy1 : 1000 ≤ (civilOfSecs (startSecOf now_us d)).year)
    (hy2 : (civilOfSecs (startSecOf now_us d)).year ≤ 9999)
    (hy3 : 1000 ≤ (civilOfSecs (endSecOf now_us)).year)
    (hy4 : (civilOfSecs (endSecOf now_us)).year ≤ 9999) :
    endSecOf now_us - startSecOf now_us d = d * 86400 ∧
    (create_export_times now_us d).1 = strftimeZfmt (startSecOf now_us d) ∧
    (create_export_times now_us d).2 = strftimeZfmt (endSecOf now_us) ∧
    isRFC3339 (create_export_times now_us d).1 = true ∧
    isRFC3339 (create_export_times now_us d).2 = true := by
  refine ⟨?_, rfl, rfl, ?_, ?_⟩
  · unfold endSecOf startSecOf epochSecOfMicros
    omega
  · exact isRFC3339_strftimeZfmt _ hy1 hy2
  · exact isRFC3339_strftimeZfmt _ hy3 hy4

/-- Witness for C3 at a concrete clock value (July 2025) and `daysBack = 1`. -/
theorem create_export_time_range_witness :
    endSecOf 1753000000000000 - startSecOf 1753000000000000 1 = 1 * 86400 ∧
    isRFC3339 (create_export_times 1753000000000000 1).1 = true ∧
    isRFC3339 (create_export_times 1753000000000000 1).2 = true :=
  ⟨(create_export_time_range 1753000000000000 1 (by decide) (by decide) (by decide)
      (by decide) (by decide)).1,
   (create_export_time_range 1753000000000000 1 (by decide) (by decide) (by decide)
      (by decide) (by decide)).2.2.2.1,
   (create_export_time_range 1753000000000000 1 (by decide) (by decide) (by decide)
      (by decide) (by decide)).2.2.2.2⟩

end DataExportCli
